import Mathlib

/-!
Verification of the AdminAPI MCP server's request/response translation layer.

The TypeScript source is embedded shallowly: each handler or client method is
translated to a pure Lean function over explicit inputs (the fetched entity
lists, the upstream response status and body, the tool arguments), and the
claims about the translation contract are settled as theorems about those
functions.  JavaScript-specific semantics that the code relies on
(truthiness of strings, `a || b` defaulting, `URLSearchParams` form
serialization, `parseInt`, `Array.prototype.join`, `Date.toISOString`) are
modelled by dedicated definitions.
-/

namespace ArcSpec

/-- JavaScript `String.prototype.toLowerCase` (ASCII range, which is all the
code compares). -/
def jsToLower (s : String) : String := String.mk (s.data.map Char.toLower)

/-- JavaScript `a || b` on two possibly-absent string values: the left side is
kept when it is truthy (present and nonempty), otherwise the right side is
returned as-is. -/
def jsStrOr (a b : Option String) : Option String :=
  match a with
  | some s => if s = "" then b else some s
  | none => b

/-- JavaScript truthiness of a possibly-absent string field. -/
def optStrTruthy : Option String → Bool
  | some s => s ≠ ""
  | none => false

/-- Template-literal rendering of a possibly-absent string
(`undefined` prints as the text `undefined`). -/
def jsDisplay : Option String → String
  | some s => s
  | none => "undefined"

/-- `Array.prototype.join(sep)`. -/
def joinSep (sep : String) : List String → String
  | [] => ""
  | [x] => x
  | x :: y :: xs => x ++ sep ++ joinSep sep (y :: xs)

/-- `big` contains `small` as a contiguous substring. -/
def ContainsStr (big small : String) : Prop :=
  ∃ p q : String, big = p ++ small ++ q

/-- Executable substring test, used through `decide` at concrete inputs. -/
def strHasSub (big sub : String) : Bool :=
  (List.range (big.data.length + 1)).any fun i => List.isPrefixOf sub.data (big.data.drop i)


/-! ## `URLSearchParams` (WHATWG application/x-www-form-urlencoded serializer)

`ArcApiClient.buildQueryString` appends each defined query option to a
`URLSearchParams` object and returns its `toString()`.  The WHATWG
urlencoded byte serializer keeps ASCII alphanumerics and `*`, `-`, `.`, `_`
verbatim, turns a space into `+`, and percent-encodes every other byte of
the UTF-8 encoding with uppercase hex digits. -/

/-- Uppercase hexadecimal digit for a value below 16. -/
def hexDigit (n : Nat) : Char :=
  if n < 10 then Char.ofNat (48 + n) else Char.ofNat (55 + n)

/-- UTF-8 bytes of one character. -/
def utf8Bytes (c : Char) : List Nat :=
  let n := c.toNat
  if n < 128 then [n]
  else if n < 2048 then [192 + n / 64, 128 + n % 64]
  else if n < 65536 then [224 + n / 4096, 128 + n / 64 % 64, 128 + n % 64]
  else [240 + n / 262144, 128 + n / 4096 % 64, 128 + n / 64 % 64, 128 + n % 64]

/-- `%XX` percent-encoding of one byte. -/
def percentByte (b : Nat) : String :=
  String.mk ['%', hexDigit (b / 16), hexDigit (b % 16)]

/-- Bytes the urlencoded serializer emits verbatim: `*`, `-`, `.`, `_`,
digits and ASCII letters. -/
def formSafe (c : Char) : Bool :=
  let n := c.toNat
  n = 42 || n = 45 || n = 46 || n = 95 ||
    (48 ≤ n && n ≤ 57) || (65 ≤ n && n ≤ 90) || (97 ≤ n && n ≤ 122)

/-- urlencoded serialization of one character. -/
def urlencodedChar (c : Char) : String :=
  if c = ' ' then "+"
  else if formSafe c then String.singleton c
  else String.join ((utf8Bytes c).map percentByte)

/-- urlencoded serialization of one string. -/
def urlencodedStr (s : String) : String :=
  String.join (s.data.map urlencodedChar)

/-- `URLSearchParams.toString()` over the appended (name, value) pairs. -/
def urlencodedSerialize (pairs : List (String × String)) : String :=
  joinSep "&" (pairs.map fun kv => urlencodedStr kv.1 ++ "=" ++ urlencodedStr kv.2)

/-! ## Query Builder -/

/-- `QueryParams` from `types/arc-api.ts`: the five optional OData options
(`$select`, `$filter`, `$orderby`, `$top`, `$skip`). -/
structure QueryParams where
  select : Option String := none
  filter : Option String := none
  orderby : Option String := none
  top : Option Nat := none
  skip : Option Nat := none
deriving DecidableEq, Repr

/-- The (key, value) pairs appended by `buildQueryString`: the tool handlers
construct the params object with keys in the fixed order `$select`,
`$filter`, `$orderby`, `$top`, `$skip`, and `buildQueryString` appends each
entry whose value is not `undefined`, stringifying numbers. -/
def queryEntries (p : QueryParams) : List (String × String) :=
  ([("$select", p.select), ("$filter", p.filter), ("$orderby", p.orderby),
    ("$top", p.top.map (fun n => toString n)),
    ("$skip", p.skip.map (fun n => toString n))]).filterMap
    fun kv => kv.2.map fun v => (kv.1, v)

/-- `ArcApiClient.buildQueryString`: empty string for an absent params
object, otherwise the urlencoded serialization prefixed with `?` when
nonempty. -/
def buildQueryString (params : Option QueryParams) : String :=
  match params with
  | none => ""
  | some p =>
    let q := urlencodedSerialize (queryEntries p)
    if q = "" then "" else "?" ++ q

/-! ## `$count` body parsing (`parseInt(response.data) || 0`) -/

/-- JavaScript `StrWhiteSpaceChar` (the ASCII part, which covers the
plain-text bodies at issue). -/
def jsIsWhite (c : Char) : Bool :=
  c = ' ' || c = '\t' || c = '\n' || c = '\r' || c.toNat = 11 || c.toNat = 12

def isDecDigit (c : Char) : Bool := 48 ≤ c.toNat && c.toNat ≤ 57

def isHexDigit (c : Char) : Bool :=
  (48 ≤ c.toNat && c.toNat ≤ 57) || (65 ≤ c.toNat && c.toNat ≤ 70) ||
    (97 ≤ c.toNat && c.toNat ≤ 102)

def decDigitVal (c : Char) : Nat := c.toNat - 48

def hexDigitVal (c : Char) : Nat :=
  if c.toNat ≤ 57 then c.toNat - 48
  else if c.toNat ≤ 70 then c.toNat - 55
  else c.toNat - 87

def skipWhite : List Char → List Char
  | [] => []
  | c :: cs => if jsIsWhite c then skipWhite cs else c :: cs

/-- JavaScript `String.prototype.trim`. -/
def jsTrim (s : String) : String :=
  String.mk ((skipWhite s.data).reverse |> skipWhite |>.reverse)

/-- Split a character list at every character satisfying `p` (segments keep
their order; adjacent separators produce empty segments, as in
`String.prototype.split`). -/
def splitChars (p : Char → Bool) : List Char → List (List Char)
  | [] => [[]]
  | c :: cs =>
    let r := splitChars p cs
    if p c then [] :: r
    else (c :: r.headD []) :: r.tail

def decValue (ds : List Char) : Nat := ds.foldl (fun acc c => acc * 10 + decDigitVal c) 0

def hexValue (ds : List Char) : Nat := ds.foldl (fun acc c => acc * 16 + hexDigitVal c) 0

/-- A `0x`/`0X` prefix: the characters after it, when present. -/
def hexPrefixRest (cs : List Char) : Option (List Char) :=
  match cs with
  | '0' :: 'x' :: rest => some rest
  | '0' :: 'X' :: rest => some rest
  | _ => none

/-- Digit scanning of `parseInt` after sign handling: a `0x`/`0X` prefix
switches to hexadecimal, otherwise the longest prefix of decimal digits is
taken; no digits means `NaN` (here `none`). -/
def jsParseIntCore (sign : Int) (cs : List Char) : Option Int :=
  match hexPrefixRest cs with
  | some rest =>
    let hs := rest.takeWhile isHexDigit
    if hs.isEmpty then none else some (sign * hexValue hs)
  | none =>
    let ds := cs.takeWhile isDecDigit
    if ds.isEmpty then none else some (sign * decValue ds)

/-- JavaScript `parseInt(s)` with an unspecified radix; `none` models `NaN`. -/
def jsParseInt (s : String) : Option Int :=
  match skipWhite s.data with
  | [] => none
  | c :: rest =>
    if c = '-' then jsParseIntCore (-1) rest
    else if c = '+' then jsParseIntCore 1 rest
    else jsParseIntCore 1 (c :: rest)

/-- `parseInt(response.data) || 0`: the shared body parsing of every
`$count` client method (`NaN` collapses to 0). -/
def parseCountBody (s : String) : Int := (jsParseInt s).getD 0

/-- `ArcApiClient.getTransactionsCount` applied to the plain-text response body. -/
def getTransactionsCount (body : String) : Int := parseCountBody body

/-- `ArcApiClient.getWorkspacesCount` applied to the plain-text response body. -/
def getWorkspacesCount (body : String) : Int := parseCountBody body

/-- `ArcApiClient.getVaultCount` applied to the plain-text response body. -/
def getVaultCount (body : String) : Int := parseCountBody body

/-- `ArcApiClient.getRequestsCount` applied to the plain-text response body. -/
def getRequestsCount (body : String) : Int := parseCountBody body

/-- `a || b || d` for a JS string expression with a literal default. -/
def jsOrDefault (a : Option String) (d : String) : String :=
  match a with
  | some s => if s = "" then d else s
  | none => d

/-! ## Entities (passthrough mirrors of `types/arc-api.ts`)

Connectors and workspaces are handled by the tool layer as dynamic
property bags (`Object.keys`, lowercase property access through `any`), so
they are embedded as association lists; the remaining entities are
structures with the interface's fields, all optional because the upstream
API omits or renames fields across versions. -/

abbrev PropBag := List (String × String)

abbrev ArcConnector := PropBag

abbrev ArcWorkspace := PropBag

structure ArcFile where
  ConnectorId : String := ""
  Folder : String := ""
  Filename : String := ""
  MessageId : String := ""
  Subfolder : Option String := none
  TimeCreated : Option String := none
  FilePath : Option String := none
  FileSize : Option Nat := none
  Content : Option String := none
  BatchGroupId : Option String := none
deriving DecidableEq, Repr, Inhabited

structure ArcTransaction where
  Id : String := ""
  ConnectorId : Option String := none
  Status : Option String := none
  Timestamp : Option String := none
  Direction : Option String := none
  Filename : Option String := none
  FilePath : Option String := none
  FileSize : Option Nat := none
  ProcessingTime : Option Nat := none
  ConnectorType : Option String := none
  BatchGroupId : Option String := none
  ETag : Option String := none
deriving DecidableEq, Repr, Inhabited

/-- `Type` is a reserved word in Lean; the source's `Type` field is `Type'`
(the `Level` variant of the second schema generation is also present). -/
structure ArcLog where
  Id : String := ""
  Timestamp : Option String := none
  Type' : Option String := none
  Level : Option String := none
  Message : Option String := none
  ConnectorId : Option String := none
  Category : Option String := none
deriving DecidableEq, Repr, Inhabited

/-- Vault entries: the upstream API returns PascalCase or lowercase field
names depending on version, and the handlers probe both spellings. -/
structure ArcVault where
  Id : Option String := none
  Name : Option String := none
  Type' : Option String := none
  ShowType : Option String := none
  Tags : Option String := none
  Value : Option String := none
  id : Option String := none
  name : Option String := none
  type : Option String := none
  showType : Option String := none
  tags : Option String := none
  value : Option String := none
deriving DecidableEq, Repr, Inhabited

structure ArcCertificate where
  Name : String := ""
  Subject : Option String := none
  Issuer : Option String := none
  IssuedBy : Option String := none
  ExpirationDate : Option String := none
  ExpirationDays : Option Nat := none
  Thumbprint : Option String := none
  ConnectorIds : Option String := none
deriving DecidableEq, Repr, Inhabited

structure ArcReport where
  Name : Option String := none
  Type' : Option String := none
  CreatedBy : Option String := none
  Schedule : Option String := none
  Columns : Option String := none
  Filters : Option String := none
  EmailReport : Option Bool := none
deriving DecidableEq, Repr, Inhabited

structure ArcRequest where
  Id : String := ""
  Timestamp : Option String := none
  URL : Option String := none
  Method : Option String := none
  User : Option String := none
  RemoteIP : Option String := none
  Bytes : Option Nat := none
  Time : Option Nat := none
  Error : Option String := none
  status : Option String := none
deriving DecidableEq, Repr, Inhabited

/-! ## API Client: status handling and request paths

Axios resolves a response iff its status is 2xx and otherwise rejects with
an error carrying `response.status`.  Each single-entity get wraps the call
in `try/catch`, converts a 404 rejection to `null`, and rethrows anything
else; each list operation unwraps the `value` envelope, defaulting to `[]`.
The upstream status and body are explicit parameters here; a thrown error
is the `Except.error` case carrying the status. -/

def is2xx (status : Nat) : Bool := 200 ≤ status && status < 300

/-- Shared shape of all nine single-entity get methods. -/
def getOneResult {α : Type} (status : Nat) (body : α) : Except Nat (Option α) :=
  if is2xx status then .ok (some body)
  else if status = 404 then .ok none
  else .error status

def getConnector (status : Nat) (body : ArcConnector) : Except Nat (Option ArcConnector) :=
  getOneResult status body

def getFile (status : Nat) (body : ArcFile) : Except Nat (Option ArcFile) :=
  getOneResult status body

def getTransaction (status : Nat) (body : ArcTransaction) : Except Nat (Option ArcTransaction) :=
  getOneResult status body

def getLog (status : Nat) (body : ArcLog) : Except Nat (Option ArcLog) :=
  getOneResult status body

def getWorkspace (status : Nat) (body : ArcWorkspace) : Except Nat (Option ArcWorkspace) :=
  getOneResult status body

def getVaultEntry (status : Nat) (body : ArcVault) : Except Nat (Option ArcVault) :=
  getOneResult status body

def getCertificate (status : Nat) (body : ArcCertificate) : Except Nat (Option ArcCertificate) :=
  getOneResult status body

def getReport (status : Nat) (body : ArcReport) : Except Nat (Option ArcReport) :=
  getOneResult status body

def getRequest (status : Nat) (body : ArcRequest) : Except Nat (Option ArcRequest) :=
  getOneResult status body

/-- OData list envelope (`ApiResponse<T>` in `types/arc-api.ts`). -/
structure ApiResponse (α : Type) where
  value : Option (List α) := none
deriving DecidableEq, Repr

/-- Shared shape of all nine list methods: `response.data.value || []` on a
2xx response. -/
def listResult {α : Type} (status : Nat) (envelope : ApiResponse α) : Except Nat (List α) :=
  if is2xx status then .ok (envelope.value.getD []) else .error status

def getConnectors (status : Nat) (envelope : ApiResponse ArcConnector) :
    Except Nat (List ArcConnector) := listResult status envelope

def getFiles (status : Nat) (envelope : ApiResponse ArcFile) :
    Except Nat (List ArcFile) := listResult status envelope

def getTransactions (status : Nat) (envelope : ApiResponse ArcTransaction) :
    Except Nat (List ArcTransaction) := listResult status envelope

def getLogs (status : Nat) (envelope : ApiResponse ArcLog) :
    Except Nat (List ArcLog) := listResult status envelope

def getWorkspaces (status : Nat) (envelope : ApiResponse ArcWorkspace) :
    Except Nat (List ArcWorkspace) := listResult status envelope

def getVaultEntries (status : Nat) (envelope : ApiResponse ArcVault) :
    Except Nat (List ArcVault) := listResult status envelope

def getCertificates (status : Nat) (envelope : ApiResponse ArcCertificate) :
    Except Nat (List ArcCertificate) := listResult status envelope

def getReports (status : Nat) (envelope : ApiResponse ArcReport) :
    Except Nat (List ArcReport) := listResult status envelope

def getRequests (status : Nat) (envelope : ApiResponse ArcRequest) :
    Except Nat (List ArcRequest) := listResult status envelope

/-- `GET /connectors('<id>')` path, built by template-literal interpolation. -/
def getConnectorPath (connectorId : String) : String :=
  "/connectors('" ++ connectorId ++ "')"

/-- Composite-key `GET /files(...)` path, built by template-literal interpolation. -/
def getFilePath (connectorId folder filename messageId : String) : String :=
  "/files(ConnectorId='" ++ connectorId ++ "',Folder='" ++ folder ++
    "',Filename='" ++ filename ++ "',MessageId='" ++ messageId ++ "')"

/-- `GET /vault('<id>')` path, built by template-literal interpolation. -/
def getVaultEntryPath (id : String) : String :=
  "/vault('" ++ id ++ "')"

/-! ## Vault tools (`vault-tools.ts`): name-to-ID resolution

`get_vault_entry`, `update_vault_entry` and `delete_vault_entry` all fetch
the entire vault list with `client.getVaultEntries()` (no query parameters)
and filter it client-side; the fetched list is the explicit first argument
of each handler below.  The outcome records the one mutating client call
the handler issues, if any. -/

/-- The filter predicate of the three handlers: the `Name` (or lowercase
`name`) field is present, truthy, and equal to the requested `vaultId` after
`toLowerCase()` on both sides. -/
def vaultNameMatches (vaultId : String) (v : ArcVault) : Bool :=
  (match v.Name with
   | some n => n != "" && (jsToLower n == jsToLower vaultId)
   | none => false) ||
  (match v.name with
   | some n => n != "" && (jsToLower n == jsToLower vaultId)
   | none => false)

def matchingVaultEntries (entries : List ArcVault) (vaultId : String) : List ArcVault :=
  entries.filter (vaultNameMatches vaultId)

def vaultNotFoundText (vaultId : String) : String :=
  "Vault entry with name '" ++ vaultId ++ "' not found."

/-- One `• Name (ID: ...)` bullet of the disambiguation message. -/
def vaultMatchLine (v : ArcVault) : String :=
  "• " ++ jsDisplay (jsStrOr v.Name v.name) ++ " (ID: " ++ jsDisplay (jsStrOr v.Id v.id) ++ ")"

def vaultAmbiguousText (vaultId : String) (ms : List ArcVault) : String :=
  "Multiple vault entries found with name '" ++ vaultId ++ "':\n\n" ++
    joinSep "\n" (ms.map vaultMatchLine) ++ "\n\nPlease use a more specific name."

def vaultDetailText (v : ArcVault) : String :=
  "**Vault Entry Details**\n\n" ++
    "**Name:** " ++ jsOrDefault (jsStrOr v.Name v.name) "Unknown" ++ "\n" ++
    "**ID:** " ++ jsDisplay (jsStrOr v.Id v.id) ++ "\n" ++
    "**Type:** " ++ jsOrDefault (jsStrOr v.Type' v.type) "Unknown" ++ "\n" ++
    "**Show Type:** " ++ jsOrDefault (jsStrOr v.ShowType v.showType) "Unknown" ++ "\n" ++
    "**Tags:** " ++ jsOrDefault (jsStrOr v.Tags v.tags) "None" ++ "\n" ++
    "**Value:** " ++ jsOrDefault (jsStrOr v.value v.Value) "Not set" ++ "\n"

/-- Arguments accepted by `update_vault_entry` after schema validation. -/
structure UpdateVaultEntryInput where
  vaultId : String
  name : Option String := none
  value : Option String := none
  type : Option String := none
  showType : Option String := none
  tags : Option String := none
deriving DecidableEq, Repr

/-- The PUT body built by `update_vault_entry`: the fixed `@odata.type`
discriminator plus exactly the argument fields that were provided. -/
structure VaultUpdateBody where
  odataType : String
  Name : Option String := none
  Value : Option String := none
  Type' : Option String := none
  ShowType : Option String := none
  Tags : Option String := none
deriving DecidableEq, Repr

def vaultUpdateBody (inp : UpdateVaultEntryInput) : VaultUpdateBody :=
  VaultUpdateBody.mk "CDataAPI.Vault" inp.name inp.value inp.type inp.showType inp.tags

/-- Result of a vault tool invocation: either a text-only response (no
further client call) or the one mutating client call issued, keyed by the
matched entry's real ID (`v.Id || v.id`). -/
inductive VaultToolOutcome where
  | message (text : String)
  | updateCall (key : String) (body : VaultUpdateBody)
  | deleteCall (key : String)
deriving DecidableEq, Repr

/-- `get_vault_entry` handler (text only; it issues no call besides the list
fetch). -/
def get_vault_entry (allVaultEntries : List ArcVault) (vaultId : String) : String :=
  let matchingEntries := matchingVaultEntries allVaultEntries vaultId
  if matchingEntries.length = 0 then vaultNotFoundText vaultId
  else if 1 < matchingEntries.length then vaultAmbiguousText vaultId matchingEntries
  else vaultDetailText (matchingEntries.headD default)

/-- `update_vault_entry` handler. -/
def update_vault_entry (allVaultEntries : List ArcVault) (inp : UpdateVaultEntryInput) :
    VaultToolOutcome :=
  let matchingEntries := matchingVaultEntries allVaultEntries inp.vaultId
  if matchingEntries.length = 0 then .message (vaultNotFoundText inp.vaultId)
  else if 1 < matchingEntries.length then .message (vaultAmbiguousText inp.vaultId matchingEntries)
  else
    let v := matchingEntries.headD default
    .updateCall (jsDisplay (jsStrOr v.Id v.id)) (vaultUpdateBody inp)

/-- `delete_vault_entry` handler. -/
def delete_vault_entry (allVaultEntries : List ArcVault) (vaultId : String) :
    VaultToolOutcome :=
  let matchingEntries := matchingVaultEntries allVaultEntries vaultId
  if matchingEntries.length = 0 then .message (vaultNotFoundText vaultId)
  else if 1 < matchingEntries.length then .message (vaultAmbiguousText vaultId matchingEntries)
  else
    let v := matchingEntries.headD default
    .deleteCall (jsDisplay (jsStrOr v.Id v.id))

/-! ## `update_connector` (`connector-tools.ts`): property filtering and
cron validation -/

def lookupProp (props : PropBag) (k : String) : Option String :=
  (props.find? (fun kv => kv.1 == k)).map (fun kv => kv.2)

def unknownWarningText (unknownProps : List String) : String :=
  "The following properties don't exist in this connector type and were not updated:\n  • " ++
    joinSep "\n  • " unknownProps

def cronWarningText (cronPattern : String) : String :=
  "'receiveinterval' value '" ++ cronPattern ++
    "' doesn't appear to be a valid cron expression. Expected format: 'minute hour day-of-month month day-of-week' (e.g., '0 2 * * *' for daily at 2 AM). The value was not updated."

/-- `cronPattern.split(/\s+/)` for an already-trimmed pattern: the maximal
nonempty whitespace-free tokens (an empty pattern yields one empty token,
as in JS). -/
def cronParts (cronPattern : String) : List String :=
  if cronPattern = "" then [""]
  else ((splitChars jsIsWhite cronPattern.data).map String.mk).filter (fun t => t != "")

/-- JS `Array.prototype.sort()` on strings (lexicographic comparison). -/
def jsSortStrings (l : List String) : List String :=
  l.mergeSort (fun a b => decide (a ≤ b))

def noValidPropsText (details : PropBag) : String :=
  "**No Valid Properties to Update**\n\n" ++
    "None of the provided properties match this connector's available properties.\n\n" ++
    "Available properties for " ++ jsDisplay (lookupProp details "connectortype") ++
    " connector:\n" ++ joinSep ", " (jsSortStrings (details.map (fun kv => kv.1)))

/-- Result of `update_connector`: connector missing, call refused with the
valid-property listing, or a PUT issued with the filtered body.  Warnings
are collected alongside, never turned into errors. -/
inductive UpdateConnectorOutcome where
  | notFound (text : String)
  | refused (text : String) (warnings : List String)
  | updated (body : PropBag) (warnings : List String)
deriving DecidableEq, Repr

def UpdateConnectorOutcome.warningsOf : UpdateConnectorOutcome → List String
  | .notFound _ => []
  | .refused _ w => w
  | .updated _ w => w

/-- `new Set(Object.keys(connectorDetails).map(k => k.toLowerCase()))`. -/
def validPropertiesOf (details : PropBag) : List String :=
  details.map (fun kv => jsToLower kv.1)

/-- The requested property names absent (case-insensitively) from the live
connector object. -/
def unknownPropsOf (details properties : PropBag) : List String :=
  (properties.map (fun kv => kv.1)).filter
    (fun p => ! (validPropertiesOf details).contains (jsToLower p))

/-- The warning list after the unknown-property check. -/
def baseWarnings (details properties : PropBag) : List String :=
  if (unknownPropsOf details properties).isEmpty then []
  else [unknownWarningText (unknownPropsOf details properties)]

/-- The `receiveinterval` cron check: a truthy value that does not split
into exactly 5 whitespace-separated fields is deleted from the update set
and a warning is appended; anything else passes through untouched. -/
def cronStep (properties : PropBag) (warnings : List String) : PropBag × List String :=
  match lookupProp properties "receiveinterval" with
  | some v =>
    if v ≠ "" ∧ (cronParts (jsTrim v)).length ≠ 5 then
      (properties.filter (fun kv => kv.1 != "receiveinterval"),
       warnings ++ [cronWarningText (jsTrim v)])
    else (properties, warnings)
  | none => (properties, warnings)

/-- The properties actually sent upstream: the (possibly cron-stripped)
request filtered to keys present case-insensitively in the live object. -/
def validUpdatePropsOf (details properties : PropBag) : PropBag :=
  (cronStep properties (baseWarnings details properties)).1.filter
    (fun kv => (validPropertiesOf details).contains (jsToLower kv.1))

/-- `update_connector` handler: `connectorDetails` is the result of the
preliminary `client.getConnector` fetch (`none` for a 404), `properties`
the caller's requested update object. -/
def update_connector (connectorId : String) (connectorDetails : Option PropBag)
    (properties : PropBag) : UpdateConnectorOutcome :=
  match connectorDetails with
  | none => .notFound ("Connector '" ++ connectorId ++ "' not found.")
  | some details =>
    let step2 := cronStep properties (baseWarnings details properties)
    let validUpdateProps := validUpdatePropsOf details properties
    if validUpdateProps.isEmpty then .refused (noValidPropsText details) step2.2
    else .updated validUpdateProps step2.2

/-! ## `receive_file` / `send_file` (`connector-tools.ts`): action-result
filtering -/

/-- One row of the upstream receive/send action result array.  `FileSize`
is rendered verbatim into the summary, so it is kept as the raw string. -/
structure ActionFileRow where
  File : Option String := none
  ErrorMessage : Option String := none
  FileSize : Option String := none
  Subfolder : Option String := none
  MessageId : Option String := none
deriving DecidableEq, Repr, Inhabited

/-- `r.File && r.File.trim() !== ''`: the row names an actual file. -/
def rowHasFile (r : ActionFileRow) : Bool :=
  match r.File with
  | some f => f != "" && jsTrim f != ""
  | none => false

/-- The rows both handlers keep after dropping blank placeholder rows. -/
def actionActualFiles (results : List ActionFileRow) : List ActionFileRow :=
  results.filter rowHasFile

/-- Rows `receive_file` reports as successfully received. -/
def receive_file_successful (results : List ActionFileRow) : List ActionFileRow :=
  (actionActualFiles results).filter (fun r => ! optStrTruthy r.ErrorMessage)

/-- Rows `receive_file` reports as failed. -/
def receive_file_failed (results : List ActionFileRow) : List ActionFileRow :=
  (actionActualFiles results).filter (fun r => optStrTruthy r.ErrorMessage)

/-- Rows `send_file` lists under `Successfully Sent` (all non-blank rows;
the handler has no error split). -/
def send_file_sentRows (results : List ActionFileRow) : List ActionFileRow :=
  actionActualFiles results

def workspaceLine (workspaceId : Option String) : String :=
  if optStrTruthy workspaceId then "**Workspace:** " ++ jsDisplay workspaceId ++ "\n" else ""

def receiveSuccessLine (r : ActionFileRow) : String :=
  "• **" ++ jsOrDefault r.File "Unknown" ++ "**" ++
    (if optStrTruthy r.FileSize then " (" ++ jsDisplay r.FileSize ++ " bytes)" else "") ++
    (if optStrTruthy r.Subfolder then " in " ++ jsDisplay r.Subfolder else "") ++
    (if optStrTruthy r.MessageId then " [" ++ jsDisplay r.MessageId ++ "]" else "") ++ "\n"

def receiveFailLine (r : ActionFileRow) : String :=
  "• **" ++ jsOrDefault r.File "Unknown" ++ "**: " ++ jsDisplay r.ErrorMessage ++ "\n"

def sendSentLine (r : ActionFileRow) : String :=
  "• **" ++ jsOrDefault r.File "Unknown" ++ "**" ++
    (if optStrTruthy r.MessageId then " [" ++ jsDisplay r.MessageId ++ "]" else "") ++ "\n"

/-- `receive_file` handler text for an upstream result array. -/
def receive_file_text (connectorId : String) (workspaceId : Option String)
    (results : List ActionFileRow) : String :=
  if results.length = 0 then
    "**No Files Received**\n\nNo files were downloaded or the connector returned no results."
  else
    let actualFiles := actionActualFiles results
    if actualFiles.length = 0 then
      "**Receive Operation Completed**\n\n**Connector:** " ++ connectorId ++ "\n" ++
        workspaceLine workspaceId ++
        "**Result:** Operation completed successfully but no files were available to download."
    else
      let successfulFiles := actualFiles.filter (fun r => ! optStrTruthy r.ErrorMessage)
      let failedFiles := actualFiles.filter (fun r => optStrTruthy r.ErrorMessage)
      "**File Receive Operation Completed**\n\n**Connector:** " ++ connectorId ++ "\n" ++
        workspaceLine workspaceId ++
        "**Files Processed:** " ++ toString actualFiles.length ++ "\n\n" ++
        (if 0 < successfulFiles.length then
          "**Successfully Received (" ++ toString successfulFiles.length ++ "):**\n" ++
            String.join (successfulFiles.map receiveSuccessLine) ++ "\n"
         else "") ++
        (if 0 < failedFiles.length then
          "**Failed (" ++ toString failedFiles.length ++ "):**\n" ++
            String.join (failedFiles.map receiveFailLine)
         else "")

def sendNoFilesText (connectorId : String) (workspaceId : Option String) : String :=
  "**Send Operation Completed**\n\n**Connector:** " ++ connectorId ++ "\n" ++
    workspaceLine workspaceId ++
    "**Result:** Operation completed successfully but no files were available to send from the send folder."

/-- `send_file` handler text for an upstream result array. -/
def send_file_text (connectorId : String) (workspaceId file subfolder : Option String)
    (results : List ActionFileRow) : String :=
  if results.length = 0 then sendNoFilesText connectorId workspaceId
  else
    let actualFiles := actionActualFiles results
    if actualFiles.length = 0 then sendNoFilesText connectorId workspaceId
    else
      "**File Send Operation Completed**\n\n**Connector:** " ++ connectorId ++ "\n" ++
        workspaceLine workspaceId ++
        (if optStrTruthy file then "**Specific File:** " ++ jsDisplay file ++ "\n" else "") ++
        (if optStrTruthy subfolder then "**Subfolder:** " ++ jsDisplay subfolder ++ "\n" else "") ++
        "**Files Sent:** " ++ toString actualFiles.length ++ "\n\n" ++
        "**Successfully Sent:**\n" ++ String.join (actualFiles.map sendSentLine)

/-! ## Relative time-window tools: `Date.toISOString` and the `ge` filters

`get_recent_transactions`, `get_error_logs` (`vault-tools.ts`) and
`get_recent_files` (`file-tools.ts`) compute
`new Date(Date.now() - hours * 60 * 60 * 1000).toISOString()` and embed it
in an OData `ge` filter.  `toISOString` is the proleptic-Gregorian UTC
rendering `YYYY-MM-DDTHH:mm:ss.sssZ` of the epoch-millisecond value. -/

def pad2 (n : Nat) : String := if n < 10 then "0" ++ toString n else toString n

def pad3 (n : Nat) : String :=
  if n < 10 then "00" ++ toString n
  else if n < 100 then "0" ++ toString n
  else toString n

def pad4 (n : Nat) : String :=
  if n < 10 then "000" ++ toString n
  else if n < 100 then "00" ++ toString n
  else if n < 1000 then "0" ++ toString n
  else toString n

def pad6 (n : Nat) : String :=
  if n < 10 then "00000" ++ toString n
  else if n < 100 then "0000" ++ toString n
  else if n < 1000 then "000" ++ toString n
  else if n < 10000 then "00" ++ toString n
  else if n < 100000 then "0" ++ toString n
  else toString n

/-- Civil date from days since 1970-01-01 (proleptic Gregorian). -/
def civilFromDays (z : Int) : Int × Nat × Nat :=
  let z' := z + 719468
  let era := Int.fdiv z' 146097
  let doe := (z' - era * 146097).toNat
  let yoe := (doe - doe / 1460 + doe / 36524 - doe / 146096) / 365
  let y := (yoe : Int) + era * 400
  let doy := doe - (365 * yoe + yoe / 4 - yoe / 100)
  let mp := (5 * doy + 2) / 153
  let d := doy - (153 * mp + 2) / 5 + 1
  let m := if mp < 10 then mp + 3 else mp - 9
  (if m ≤ 2 then y + 1 else y, m, d)

/-- Everything of the ISO rendering before the closing `Z` designator. -/
def isoStringBody (ms : Int) : String :=
  let day := Int.fdiv ms 86400000
  let msod := (Int.fmod ms 86400000).toNat
  let ymd := civilFromDays day
  let y := ymd.1
  let yearStr :=
    if 0 ≤ y ∧ y ≤ 9999 then pad4 y.toNat
    else if y < 0 then "-" ++ pad6 (-y).toNat
    else "+" ++ pad6 y.toNat
  yearStr ++ "-" ++ pad2 ymd.2.1 ++ "-" ++ pad2 ymd.2.2 ++ "T" ++
    pad2 (msod / 3600000) ++ ":" ++ pad2 (msod / 60000 % 60) ++ ":" ++
    pad2 (msod / 1000 % 60) ++ "." ++ pad3 (msod % 1000)

/-- `Date.prototype.toISOString` of an epoch-millisecond timestamp. -/
def toISOString (ms : Int) : String := isoStringBody ms ++ "Z"

/-- `z.number().positive().default(24).parse(args.hours || 24)`: an absent
(or falsy 0) `hours` argument becomes 24. -/
def resolveHoursArg : Option Nat → Nat
  | none => 24
  | some h => if h = 0 then 24 else h

/-- The `$filter` built by `get_recent_transactions` (quoted-literal style
of `vault-tools.ts`). -/
def recentTransactionsFilter (now : Int) (hours : Nat) : String :=
  "Timestamp ge '" ++ toISOString (now - hours * 60 * 60 * 1000) ++ "'"

/-- The `$filter` built by `get_error_logs`. -/
def errorLogsFilter (now : Int) (hours : Nat) (connectorId : Option String) : String :=
  let base := "Timestamp ge '" ++ toISOString (now - hours * 60 * 60 * 1000) ++ "' and Type eq 'Error'"
  match connectorId with
  | some c => base ++ " and ConnectorId eq '" ++ c ++ "'"
  | none => base

/-- The `$filter` built by `get_recent_files`. -/
def recentFilesFilter (now : Int) (hours : Nat) : String :=
  "TimeCreated ge '" ++ toISOString (now - hours * 60 * 60 * 1000) ++ "'"

/-! ## List tools: empty-result handling

Each list tool renders a text result and never marks it as an error; on an
empty fetched list the dedicated empty branch (or, for the header-style
tools, a `Found 0 ...` header over an empty body) is returned.  Per-row
rendering that depends on locale date formatting or floating-point byte/time
pretty-printing (presentation only) is abstracted as the `renderRow`
parameter; it does not affect the empty case. -/

structure ToolResult where
  text : String
  isError : Bool := false
deriving DecidableEq, Repr

def ToolResult.ok (text : String) : ToolResult := ⟨text, false⟩

/-- `list_vault_entries` row rendering (pure). -/
def vaultListRow (v : ArcVault) : String :=
  "**" ++ jsOrDefault (jsStrOr v.Name v.name) "Unknown" ++ "**\n" ++
    "  ID: " ++ jsDisplay (jsStrOr v.Id v.id) ++ "\n" ++
    "  Type: " ++ jsOrDefault (jsStrOr v.Type' v.type) "Unknown" ++ "\n" ++
    "  Show Type: " ++ jsOrDefault (jsStrOr v.ShowType v.showType) "Unknown" ++ "\n" ++
    "  Tags: " ++ jsOrDefault (jsStrOr v.Tags v.tags) "None" ++ "\n" ++
    "  Value: " ++ jsOrDefault (jsStrOr v.value v.Value) "Not set" ++ "\n"

def list_vault_entries_result (vaultEntries : List ArcVault) : ToolResult :=
  if vaultEntries.length = 0 then .ok "No vault entries found matching the criteria."
  else .ok ("Found " ++ toString vaultEntries.length ++ " vault entries:\n\n" ++
    joinSep "\n" (vaultEntries.map vaultListRow))

def list_connectors_result (renderRow : ArcConnector → String)
    (connectors : List ArcConnector) : ToolResult :=
  .ok ("**Found " ++ toString connectors.length ++ " connectors:**\n\n" ++
    joinSep "\n" (connectors.map renderRow))

def list_transactions_result (renderRow : ArcTransaction → String)
    (transactions : List ArcTransaction) : ToolResult :=
  if transactions.length = 0 then .ok "No transactions found matching the criteria."
  else .ok ("Found " ++ toString transactions.length ++ " transactions:\n\n" ++
    joinSep "\n" (transactions.map renderRow))

def list_logs_result (renderRow : ArcLog → String) (logs : List ArcLog) : ToolResult :=
  if logs.length = 0 then .ok "No logs found matching the criteria."
  else .ok ("Found " ++ toString logs.length ++ " log entries:\n\n" ++
    joinSep "\n" (logs.map renderRow))

def list_files_result (renderRow : ArcFile → String) (files : List ArcFile) : ToolResult :=
  if files.length = 0 then .ok "No files found matching the criteria."
  else .ok ("**Found " ++ toString files.length ++ " files:**\n\n" ++
    joinSep "\n" (files.map renderRow))

def list_certificates_result (renderRow : ArcCertificate → String)
    (certificates : List ArcCertificate) : ToolResult :=
  .ok ("🔐 **Found " ++ toString certificates.length ++ " certificates:**\n\n" ++
    joinSep "\n" (certificates.map renderRow))

def list_reports_result (renderRow : ArcReport → String)
    (reports : List ArcReport) : ToolResult :=
  if reports.length = 0 then .ok "No reports found matching the criteria."
  else .ok ("Found " ++ toString reports.length ++ " reports:\n\n" ++
    joinSep "\n" (reports.map renderRow))

def list_requests_result (renderRow : ArcRequest → String)
    (requests : List ArcRequest) : ToolResult :=
  if requests.length = 0 then .ok "No request logs found matching the criteria."
  else .ok ("Found " ++ toString requests.length ++ " request logs:\n\n" ++
    joinSep "\n" (requests.map renderRow))

/-- `list_workspaces` (config-tools variant, with the dedicated empty
branch; rows use locale date formatting). -/
def list_workspaces_result (renderRow : ArcWorkspace → String)
    (workspaces : List ArcWorkspace) : ToolResult :=
  if workspaces.length = 0 then .ok "No workspaces found matching the criteria."
  else .ok ("Found " ++ toString workspaces.length ++ " workspaces:\n\n" ++
    joinSep "\n" (workspaces.map renderRow))

/-- `list_workspaces` (`workspace-tools.ts` variant): the text is
`summary\n\n(workspaceList || 'No workspaces found')`, where the summary
carries the count (plus the filter when truthy) and the `||` default fires
on the empty join. -/
def list_workspaces_summary_result (renderRow : ArcWorkspace → String)
    (filter : Option String) (workspaces : List ArcWorkspace) : ToolResult :=
  .ok ("Found " ++ toString workspaces.length ++ " workspace(s)" ++
    (if optStrTruthy filter then " matching filter: " ++ jsDisplay filter else "") ++
    "\n\n" ++
    (if joinSep "\n\n" (workspaces.map renderRow) = "" then "No workspaces found"
     else joinSep "\n\n" (workspaces.map renderRow)))

/-! ## Helper lemmas -/

theorem string_append_data (a b : String) : (a ++ b).data = a.data ++ b.data := rfl

theorem string_mk_append (l₁ l₂ : List Char) :
    (String.mk l₁ ++ String.mk l₂) = String.mk (l₁ ++ l₂) := rfl

theorem string_empty_append (s : String) : "" ++ s = s := rfl

theorem string_append_empty (s : String) : s ++ "" = s := by
  apply String.ext
  show s.data ++ [] = s.data
  exact List.append_nil _

theorem string_append_assoc (a b c : String) : a ++ b ++ c = a ++ (b ++ c) := by
  apply String.ext
  show (a.data ++ b.data) ++ c.data = a.data ++ (b.data ++ c.data)
  exact List.append_assoc _ _ _

theorem strHasSub_iff (big sub : String) :
    strHasSub big sub = true ↔ ContainsStr big sub := by
  constructor
  · intro h
    rcases List.any_eq_true.mp h with ⟨i, _, hpre⟩
    have heq := List.prefix_iff_eq_append.mp ( List.isPrefixOf_iff_prefix.mp hpre)
    refine ⟨String.mk (big.data.take i), String.mk ((big.data.drop i).drop sub.data.length), ?_⟩
    apply String.ext
    simp only [string_append_data]
    rw [List.append_assoc, heq]
    exact (List.take_append_drop i big.data).symm
  · rintro ⟨p, q, rfl⟩
    apply List.any_eq_true.mpr
    refine ⟨p.data.length, ?_, ?_⟩
    · apply List.mem_range.mpr
      have h1 : ((p ++ sub ++ q).data).length =
          p.data.length + sub.data.length + q.data.length := by
        simp only [string_append_data, List.length_append]
      omega
    · apply List.isPrefixOf_iff_prefix.mpr
      have h2 : ((p ++ sub ++ q).data).drop p.data.length = sub.data ++ q.data := by
        simp only [string_append_data, List.append_assoc]
        exact List.drop_left _ _
      rw [h2]
      exact List.prefix_append _ _

theorem containsStr_of_eq_append {big p s q : String} (h : big = p ++ s ++ q) :
    ContainsStr big s := ⟨p, q, h⟩

theorem containsStr_append_left {big s : String} (x : String) (h : ContainsStr big s) :
    ContainsStr (x ++ big) s := by
  rcases h with ⟨p, q, rfl⟩
  exact ⟨x ++ p, q, by simp [string_append_assoc]⟩

theorem containsStr_append_right {big s : String} (x : String) (h : ContainsStr big s) :
    ContainsStr (big ++ x) s := by
  rcases h with ⟨p, q, rfl⟩
  exact ⟨p, q ++ x, by simp [string_append_assoc]⟩

/-- Every element of a joined list occurs as a substring of the join. -/
theorem containsStr_joinSep {sep : String} {l : List String} {s : String} (h : s ∈ l) :
    ContainsStr (joinSep sep l) s := by
  induction l with
  | nil => cases h
  | cons x xs ih =>
    cases xs with
    | nil =>
      have hx : s = x := by simpa using h
      subst hx
      exact ⟨"", "", by simp [joinSep]⟩
    | cons y ys =>
      rcases List.mem_cons.mp h with h1 | h2
      · subst h1
        refine ⟨"", sep ++ joinSep sep (y :: ys), ?_⟩
        show joinSep sep (s :: y :: ys) = "" ++ s ++ (sep ++ joinSep sep (y :: ys))
        simp [joinSep, string_append_assoc, string_empty_append]
      · have hrest := ih h2
        have : joinSep sep (x :: y :: ys) = (x ++ sep) ++ joinSep sep (y :: ys) := by
          simp [joinSep, string_append_assoc]
        rw [this]
        exact containsStr_append_left _ hrest

theorem takeWhile_eq_nil_of_all_false {p : Char → Bool} {l : List Char}
    (h : ∀ c ∈ l, p c = false) : l.takeWhile p = [] := by
  cases l with
  | nil => rfl
  | cons c cs => simp [List.takeWhile_cons, h c (by simp)]

theorem skipWhite_subset {l : List Char} {c : Char} (hc : c ∈ skipWhite l) : c ∈ l := by
  induction l with
  | nil => simp [skipWhite] at hc
  | cons a as ih =>
    rw [skipWhite] at hc
    by_cases hw : jsIsWhite a
    · rw [if_pos hw] at hc
      exact List.mem_cons_of_mem _ (ih hc)
    · rw [if_neg hw] at hc
      exact hc

theorem jsParseIntCore_none_of_noDigits (sign : Int) (cs : List Char)
    (h : ∀ c ∈ cs, isDecDigit c = false) : jsParseIntCore sign cs = none := by
  have hhex : hexPrefixRest cs = none := by
    unfold hexPrefixRest
    split
    · have := h '0' (List.mem_cons_self _ _)
      simp [isDecDigit] at this
    · have := h '0' (List.mem_cons_self _ _)
      simp [isDecDigit] at this
    · rfl
  have htake : cs.takeWhile isDecDigit = [] := takeWhile_eq_nil_of_all_false h
  rw [jsParseIntCore, hhex]
  simp [htake]

theorem jsParseInt_none_of_noDigits (s : String)
    (h : ∀ c ∈ s.data, isDecDigit c = false) : jsParseInt s = none := by
  have hsub : ∀ c ∈ skipWhite s.data, isDecDigit c = false :=
    fun c hc => h c (skipWhite_subset hc)
  rw [jsParseInt]
  cases hcs : skipWhite s.data with
  | nil => rfl
  | cons c rest =>
    rw [hcs] at hsub
    have hrest : ∀ x ∈ rest, isDecDigit x = false :=
      fun x hx => hsub x (List.mem_cons_of_mem _ hx)
    by_cases hminus : c = '-'
    · simp [hminus, jsParseIntCore_none_of_noDigits _ _ hrest]
    · by_cases hplus : c = '+'
      · simp [hminus, hplus, jsParseIntCore_none_of_noDigits _ _ hrest]
      · simp [hminus, hplus, jsParseIntCore_none_of_noDigits _ _ hsub]

/-- Cancelling a shared literal prefix and suffix of an interpolated string. -/
theorem string_affix_inj {pre post a b : String}
    (h : pre ++ a ++ post = pre ++ b ++ post) : a = b := by
  apply String.ext
  have hd := congrArg String.data h
  simp only [string_append_data, List.append_assoc] at hd
  have h1 := List.append_cancel_left hd
  exact List.append_cancel_right h1

/-- The branch analysis shared by the nine single-entity get methods. -/
theorem getOneResult_spec {α : Type} (status : Nat) (b : α) :
    (status = 404 → getOneResult status b = .ok none) ∧
    (is2xx status = false → status ≠ 404 → getOneResult status b = .error status) ∧
    (getOneResult status b = .ok none → status = 404) := by
  unfold getOneResult
  refine ⟨fun h => ?_, fun h2 hne => ?_, fun h => ?_⟩
  · subst h; rfl
  · rw [h2, if_neg (by simp), if_neg hne]
  · by_cases h2 : is2xx status
    · rw [if_pos h2] at h; cases h
    · rw [if_neg h2] at h
      by_cases hne : status = 404
      · exact hne
      · rw [if_neg hne] at h; cases h

/-- The vault name filter accepts exactly the entries whose `Name` or
lowercase `name` field is present, nonempty and case-insensitively equal to
the requested id. -/
theorem vaultNameMatches_iff (vaultId : String) (v : ArcVault) :
    vaultNameMatches vaultId v = true ↔
      ((∃ n, v.Name = some n ∧ n ≠ "" ∧ jsToLower n = jsToLower vaultId) ∨
       (∃ n, v.name = some n ∧ n ≠ "" ∧ jsToLower n = jsToLower vaultId)) := by
  unfold vaultNameMatches
  cases hN : v.Name <;> cases hn : v.name <;>
    simp [Bool.or_eq_true, Bool.and_eq_true, bne_iff_ne, beq_iff_eq]

theorem lookupProp_some {props : PropBag} {k v : String}
    (h : lookupProp props k = some v) : (k, v) ∈ props := by
  unfold lookupProp at h
  cases hf : props.find? (fun kv => kv.1 == k) with
  | none => rw [hf] at h; cases h
  | some kv =>
    rw [hf] at h
    have hm := List.mem_of_find?_eq_some hf
    have hp := List.find?_some hf
    have hk : kv.1 = k := by simpa using hp
    have hv : kv.2 = v := by injection h
    have : kv = (k, v) := by cases kv; simp_all
    rwa [this] at hm

theorem cronStep_fst_subset {props : PropBag} {w : List String} {kv : String × String}
    (h : kv ∈ (cronStep props w).1) : kv ∈ props := by
  unfold cronStep at h
  split at h
  · split at h
    · exact List.mem_of_mem_filter h
    · exact h
  · exact h

theorem cronStep_snd_mem {props : PropBag} {w : List String} {x : String}
    (h : x ∈ w) : x ∈ (cronStep props w).2 := by
  unfold cronStep
  split
  · split
    · exact List.mem_append_left _ h
    · exact h
  · exact h

/-- `cronStep` unfolded at a present `receiveinterval` key. -/
theorem cronStep_eq_of_lookup {props : PropBag} {w : List String} {v : String}
    (hv : lookupProp props "receiveinterval" = some v) :
    cronStep props w =
      if v ≠ "" ∧ (cronParts (jsTrim v)).length ≠ 5 then
        (props.filter (fun kv => kv.1 != "receiveinterval"),
         w ++ [cronWarningText (jsTrim v)])
      else (props, w) := by
  unfold cronStep
  rw [hv]

/-- `update_connector` unfolded at an existing connector. -/
theorem update_connector_some (cid : String) (details props : PropBag) :
    update_connector cid (some details) props =
      if (validUpdatePropsOf details props).isEmpty then
        UpdateConnectorOutcome.refused (noValidPropsText details)
          (cronStep props (baseWarnings details props)).2
      else UpdateConnectorOutcome.updated (validUpdatePropsOf details props)
        (cronStep props (baseWarnings details props)).2 := rfl

theorem update_connector_updated_inv {cid : String} {details : PropBag}
    {props body : PropBag} {w : List String}
    (h : update_connector cid (some details) props = .updated body w) :
    body = validUpdatePropsOf details props ∧
    w = (cronStep props (baseWarnings details props)).2 := by
  rw [update_connector_some] at h
  by_cases he : (validUpdatePropsOf details props).isEmpty
  · rw [if_pos he] at h
    cases h
  · rw [if_neg he] at h
    injection h with h1 h2
    exact ⟨h1.symm, h2.symm⟩

theorem update_connector_warningsOf (cid : String) (details props : PropBag) :
    (update_connector cid (some details) props).warningsOf =
      (cronStep props (baseWarnings details props)).2 := by
  rw [update_connector_some]
  by_cases he : (validUpdatePropsOf details props).isEmpty <;>
    simp [he, UpdateConnectorOutcome.warningsOf]

/-! ## Claim theorems -/

/-- **C3, counterexample.** The Query Builder applied to
`{top: 10, filter: "Status eq 'Error'"}` does *not* produce a query string
containing the literal substring `$filter=Status%20eq%20%27Error%27&$top=10`:
`URLSearchParams` serializes a space as `+` (not `%20`) and percent-encodes
the `$` prefixes as `%24`. -/
theorem claim_C3_counterexample :
    ¬ ContainsStr
      (buildQueryString (some ⟨none, some "Status eq 'Error'", none, some 10, none⟩))
      "$filter=Status%20eq%20%27Error%27&$top=10" := by
  rw [← strHasSub_iff]
  decide

/-- **C3 (amended).** The Query Builder, applied to
`{top: 10, filter: "Status eq 'Error'"}`, produces exactly
`?%24filter=Status+eq+%27Error%27&%24top=10` (stable `$filter`-before-`$top`
order; form-urlencoding with spaces as `+`, quotes as `%27` and the `$`
prefixes as `%24`), emits no `$select`/`$orderby`/`$skip` parameter, and an
absent or empty input produces the empty string with no `?` separator. -/
theorem claim_C3_query_builder :
    buildQueryString (some ⟨none, some "Status eq 'Error'", none, some 10, none⟩) =
      "?%24filter=Status+eq+%27Error%27&%24top=10" ∧
    ¬ ContainsStr
      (buildQueryString (some ⟨none, some "Status eq 'Error'", none, some 10, none⟩))
      "select" ∧
    ¬ ContainsStr
      (buildQueryString (some ⟨none, some "Status eq 'Error'", none, some 10, none⟩))
      "orderby" ∧
    ¬ ContainsStr
      (buildQueryString (some ⟨none, some "Status eq 'Error'", none, some 10, none⟩))
      "skip" ∧
    buildQueryString none = "" ∧
    buildQueryString (some ⟨none, none, none, none, none⟩) = "" := by
  refine ⟨by decide, ?_, ?_, ?_, rfl, rfl⟩ <;> (rw [← strHasSub_iff]; decide)

/-- **C7.** Every `$count` operation of the API Client
(`getTransactionsCount`, `getWorkspacesCount`, `getVaultCount`,
`getRequestsCount`) parses the plain-text body as a decimal integer:
body `"42"` gives 42, and an empty body or a body containing no decimal
digit at all gives 0. -/
theorem claim_C7_count_parsing :
    getTransactionsCount "42" = 42 ∧ getWorkspacesCount "42" = 42 ∧
    getVaultCount "42" = 42 ∧ getRequestsCount "42" = 42 ∧
    getTransactionsCount "" = 0 ∧ getWorkspacesCount "" = 0 ∧
    getVaultCount "" = 0 ∧ getRequestsCount "" = 0 ∧
    ∀ body : String, (∀ c ∈ body.data, isDecDigit c = false) →
      getTransactionsCount body = 0 ∧ getWorkspacesCount body = 0 ∧
      getVaultCount body = 0 ∧ getRequestsCount body = 0 := by
  refine ⟨by decide, by decide, by decide, by decide, rfl, rfl, rfl, rfl, fun body h => ?_⟩
  have h0 : parseCountBody body = 0 := by
    unfold parseCountBody
    rw [jsParseInt_none_of_noDigits body h]
    rfl
  exact ⟨h0, h0, h0, h0⟩

/-- **C7, witness.** The no-digit case applied to the body `"daily"`. -/
theorem claim_C7_witness :
    getTransactionsCount "daily" = 0 ∧ getVaultCount "daily" = 0 := by
  have h := (claim_C7_count_parsing.2.2.2.2.2.2.2.2 "daily") (by decide)
  exact ⟨h.1, h.2.2.1⟩

/-- **C4.** Every single-entity get operation of the API Client maps an
upstream 404 to `null` (`Except.ok none`) without throwing; every other
non-2xx status throws an error carrying the upstream status; and no status
other than 404 is mapped to `null`. -/
theorem claim_C4_get_404_null (status : Nat) (c : ArcConnector) (f : ArcFile)
    (t : ArcTransaction) (l : ArcLog) (w : ArcWorkspace) (v : ArcVault)
    (ce : ArcCertificate) (r : ArcReport) (rq : ArcRequest) :
    (status = 404 →
      getConnector status c = .ok none ∧ getFile status f = .ok none ∧
      getTransaction status t = .ok none ∧ getLog status l = .ok none ∧
      getWorkspace status w = .ok none ∧ getVaultEntry status v = .ok none ∧
      getCertificate status ce = .ok none ∧ getReport status r = .ok none ∧
      getRequest status rq = .ok none) ∧
    (is2xx status = false → status ≠ 404 →
      getConnector status c = .error status ∧ getFile status f = .error status ∧
      getTransaction status t = .error status ∧ getLog status l = .error status ∧
      getWorkspace status w = .error status ∧ getVaultEntry status v = .error status ∧
      getCertificate status ce = .error status ∧ getReport status r = .error status ∧
      getRequest status rq = .error status) ∧
    ((getConnector status c = .ok none ∨ getFile status f = .ok none ∨
      getTransaction status t = .ok none ∨ getLog status l = .ok none ∨
      getWorkspace status w = .ok none ∨ getVaultEntry status v = .ok none ∨
      getCertificate status ce = .ok none ∨ getReport status r = .ok none ∨
      getRequest status rq = .ok none) → status = 404) := by
  refine ⟨fun h => ?_, fun h2 hne => ?_, fun h => ?_⟩
  · exact ⟨(getOneResult_spec status c).1 h, (getOneResult_spec status f).1 h,
      (getOneResult_spec status t).1 h, (getOneResult_spec status l).1 h,
      (getOneResult_spec status w).1 h, (getOneResult_spec status v).1 h,
      (getOneResult_spec status ce).1 h, (getOneResult_spec status r).1 h,
      (getOneResult_spec status rq).1 h⟩
  · exact ⟨(getOneResult_spec status c).2.1 h2 hne, (getOneResult_spec status f).2.1 h2 hne,
      (getOneResult_spec status t).2.1 h2 hne, (getOneResult_spec status l).2.1 h2 hne,
      (getOneResult_spec status w).2.1 h2 hne, (getOneResult_spec status v).2.1 h2 hne,
      (getOneResult_spec status ce).2.1 h2 hne, (getOneResult_spec status r).2.1 h2 hne,
      (getOneResult_spec status rq).2.1 h2 hne⟩
  · rcases h with h | h | h | h | h | h | h | h | h
    · exact (getOneResult_spec status c).2.2 h
    · exact (getOneResult_spec status f).2.2 h
    · exact (getOneResult_spec status t).2.2 h
    · exact (getOneResult_spec status l).2.2 h
    · exact (getOneResult_spec status w).2.2 h
    · exact (getOneResult_spec status v).2.2 h
    · exact (getOneResult_spec status ce).2.2 h
    · exact (getOneResult_spec status r).2.2 h
    · exact (getOneResult_spec status rq).2.2 h

/-- **C4, witness.** A 404 on `getConnector` yields `null`; a 500 on
`getVaultEntry` throws carrying 500. -/
theorem claim_C4_witness :
    getConnector 404 [] = .ok none ∧ getVaultEntry 500 default = .error 500 := by
  refine ⟨((claim_C4_get_404_null 404 [] default default default default default default
      default default).1 rfl).1, ?_⟩
  exact ((claim_C4_get_404_null 500 [] default default default default default default
      default default).2.1 (by decide) (by decide)).2.2.2.2.2.1

/-- **C10.** Single-entity request paths are built by direct string
interpolation of the caller-supplied keys with no escaping: the exact path
equations hold for every key; two different argument tuples of `getFile`
can collide on the same request path; and a `getConnector` key containing a
single quote produces a path that no quote-free key produces. -/
theorem claim_C10_path_interpolation :
    (∀ k, getConnectorPath k = "/connectors('" ++ k ++ "')") ∧
    (∀ c f n m, getFilePath c f n m =
      "/files(ConnectorId='" ++ c ++ "',Folder='" ++ f ++ "',Filename='" ++ n ++
        "',MessageId='" ++ m ++ "')") ∧
    (∀ i, getVaultEntryPath i = "/vault('" ++ i ++ "')") ∧
    (getFilePath "a" "b',Folder='b2" "c" "d" = getFilePath "a',Folder='b" "b2" "c" "d" ∧
      ("a", "b',Folder='b2") ≠ (("a',Folder='b", "b2") : String × String)) ∧
    (∀ s, getConnectorPath "x'y" = "/connectors('" ++ s ++ "')" →
      Char.ofNat 39 ∈ s.data) := by
  refine ⟨fun k => rfl, fun c f n m => by simp [getFilePath, string_append_assoc],
    fun i => rfl, ⟨by decide, by decide⟩, fun s h => ?_⟩
  have hs : ("x'y" : String) = s := @string_affix_inj "/connectors('" "')" _ _ h
  rw [← hs]
  decide

/-- **C10, witness.** The quote-containing key `x'y` instantiating the last
component. -/
theorem claim_C10_witness : Char.ofNat 39 ∈ ("x'y" : String).data :=
  claim_C10_path_interpolation.2.2.2.2 "x'y" rfl

/-- **C9.** Every list operation of the API Client returns the empty array
(without throwing) when a 2xx envelope lacks a `value` array, and every
list tool turns an empty fetched list into a non-error informative text:
the tools with a dedicated empty branch (including both config-tools
`list_workspaces` variants' branch) return their `No ... found` message,
the header-style tools (`list_connectors`, `list_certificates`) return a
`Found 0 ...` header, and the `workspace-tools.ts` `list_workspaces`
returns its `Found 0 workspace(s)` summary over the `No workspaces found`
default. -/
theorem claim_C9_empty_lists (status : Nat)
    (ec : ApiResponse ArcConnector) (ef : ApiResponse ArcFile)
    (et : ApiResponse ArcTransaction) (el : ApiResponse ArcLog)
    (ew : ApiResponse ArcWorkspace) (ev : ApiResponse ArcVault)
    (ece : ApiResponse ArcCertificate) (er : ApiResponse ArcReport)
    (erq : ApiResponse ArcRequest)
    (rc : ArcConnector → String) (rt : ArcTransaction → String)
    (rl : ArcLog → String) (rf : ArcFile → String)
    (rce : ArcCertificate → String) (rr : ArcReport → String)
    (rrq : ArcRequest → String) (rwk rws : ArcWorkspace → String) :
    (is2xx status = true →
      (ec.value = none → getConnectors status ec = .ok []) ∧
      (ef.value = none → getFiles status ef = .ok []) ∧
      (et.value = none → getTransactions status et = .ok []) ∧
      (el.value = none → getLogs status el = .ok []) ∧
      (ew.value = none → getWorkspaces status ew = .ok []) ∧
      (ev.value = none → getVaultEntries status ev = .ok []) ∧
      (ece.value = none → getCertificates status ece = .ok []) ∧
      (er.value = none → getReports status er = .ok []) ∧
      (erq.value = none → getRequests status erq = .ok [])) ∧
    list_vault_entries_result [] =
      ToolResult.mk "No vault entries found matching the criteria." false ∧
    list_transactions_result rt [] =
      ToolResult.mk "No transactions found matching the criteria." false ∧
    list_logs_result rl [] = ToolResult.mk "No logs found matching the criteria." false ∧
    list_files_result rf [] = ToolResult.mk "No files found matching the criteria." false ∧
    list_reports_result rr [] = ToolResult.mk "No reports found matching the criteria." false ∧
    list_requests_result rrq [] =
      ToolResult.mk "No request logs found matching the criteria." false ∧
    list_connectors_result rc [] = ToolResult.mk "**Found 0 connectors:**\n\n" false ∧
    list_certificates_result rce [] =
      ToolResult.mk "🔐 **Found 0 certificates:**\n\n" false ∧
    list_workspaces_result rwk [] =
      ToolResult.mk "No workspaces found matching the criteria." false ∧
    (∀ fil, list_workspaces_summary_result rws fil [] =
      ToolResult.mk ("Found " ++ toString (0 : Nat) ++ " workspace(s)" ++
        (if optStrTruthy fil then " matching filter: " ++ jsDisplay fil else "") ++
        "\n\n" ++ "No workspaces found") false) ∧
    list_workspaces_summary_result rws none [] =
      ToolResult.mk "Found 0 workspace(s)\n\nNo workspaces found" false ∧
    (∀ vs : List ArcVault, (list_vault_entries_result vs).isError = false) ∧
    (∀ cs : List ArcConnector, (list_connectors_result rc cs).isError = false) ∧
    (∀ ts : List ArcTransaction, (list_transactions_result rt ts).isError = false) ∧
    (∀ ls : List ArcLog, (list_logs_result rl ls).isError = false) ∧
    (∀ fs : List ArcFile, (list_files_result rf fs).isError = false) ∧
    (∀ ces : List ArcCertificate, (list_certificates_result rce ces).isError = false) ∧
    (∀ rs : List ArcReport, (list_reports_result rr rs).isError = false) ∧
    (∀ rqs : List ArcRequest, (list_requests_result rrq rqs).isError = false) ∧
    (∀ ws : List ArcWorkspace, (list_workspaces_result rwk ws).isError = false) ∧
    (∀ fil, ∀ ws : List ArcWorkspace,
      (list_workspaces_summary_result rws fil ws).isError = false) := by
  refine ⟨fun h2 => ?_, rfl, rfl, rfl, rfl, rfl, rfl, ?_, ?_, rfl, fun fil => rfl, rfl,
    ?_, ?_, ?_, ?_, ?_, ?_, ?_, ?_, ?_, ?_⟩
  · refine ⟨fun hv => ?_, fun hv => ?_, fun hv => ?_, fun hv => ?_, fun hv => ?_,
      fun hv => ?_, fun hv => ?_, fun hv => ?_, fun hv => ?_⟩ <;>
      simp [getConnectors, getFiles, getTransactions, getLogs, getWorkspaces,
        getVaultEntries, getCertificates, getReports, getRequests, listResult, h2, hv]
  · unfold list_connectors_result
    rw [show joinSep "\n" (List.map rc []) = "" from rfl, string_append_empty]
    rfl
  · unfold list_certificates_result
    rw [show joinSep "\n" (List.map rce []) = "" from rfl, string_append_empty]
    rfl
  all_goals intro xs
  all_goals first
    | (unfold list_vault_entries_result; split <;> rfl)
    | (unfold list_connectors_result; rfl)
    | (unfold list_transactions_result; split <;> rfl)
    | (unfold list_logs_result; split <;> rfl)
    | (unfold list_files_result; split <;> rfl)
    | (unfold list_certificates_result; rfl)
    | (unfold list_reports_result; split <;> rfl)
    | (unfold list_requests_result; split <;> rfl)
    | (unfold list_workspaces_result; split <;> rfl)
    | (intro ws2; unfold list_workspaces_summary_result; rfl)

/-- **C9, witness.** A 2xx response with no `value` field on the vault list
and the empty vault list through `list_vault_entries`. -/
theorem claim_C9_witness :
    getVaultEntries 200 (ApiResponse.mk none) = .ok [] ∧
    list_vault_entries_result [] =
      ToolResult.mk "No vault entries found matching the criteria." false := by
  have h := claim_C9_empty_lists 200 (ApiResponse.mk none) (ApiResponse.mk none)
    (ApiResponse.mk none) (ApiResponse.mk none) (ApiResponse.mk none) (ApiResponse.mk none)
    (ApiResponse.mk none) (ApiResponse.mk none) (ApiResponse.mk none)
    (fun _ => "") (fun _ => "") (fun _ => "") (fun _ => "") (fun _ => "") (fun _ => "")
    (fun _ => "") (fun _ => "") (fun _ => "")
  exact ⟨(h.1 rfl).2.2.2.2.2.1 rfl, h.2.1⟩

/-- **C1.** The vault `get`/`update`/`delete` tools resolve the supplied
`vaultId` against the full fetched vault list by case-insensitive `Name`
(or lowercase `name`) match: zero matches yield the not-found message and
no mutating call; several matches yield the disambiguation message, which
lists every match's name-and-ID bullet, and no mutating call; a unique
match makes the handler issue its mutating call keyed by that entry's `Id`
field (`Id || id`), not by the supplied string. -/
theorem claim_C1_vault_name_resolution (entries : List ArcVault)
    (inp : UpdateVaultEntryInput) (vaultId : String) :
    (matchingVaultEntries entries inp.vaultId = [] →
      update_vault_entry entries inp = .message (vaultNotFoundText inp.vaultId)) ∧
    (1 < (matchingVaultEntries entries inp.vaultId).length →
      update_vault_entry entries inp =
        .message (vaultAmbiguousText inp.vaultId (matchingVaultEntries entries inp.vaultId)) ∧
      ∀ v ∈ matchingVaultEntries entries inp.vaultId,
        ContainsStr (vaultAmbiguousText inp.vaultId (matchingVaultEntries entries inp.vaultId))
          (vaultMatchLine v)) ∧
    (∀ v i, matchingVaultEntries entries inp.vaultId = [v] → jsStrOr v.Id v.id = some i →
      update_vault_entry entries inp = .updateCall i (vaultUpdateBody inp)) ∧
    (matchingVaultEntries entries vaultId = [] →
      delete_vault_entry entries vaultId = .message (vaultNotFoundText vaultId)) ∧
    (1 < (matchingVaultEntries entries vaultId).length →
      delete_vault_entry entries vaultId =
        .message (vaultAmbiguousText vaultId (matchingVaultEntries entries vaultId))) ∧
    (∀ v i, matchingVaultEntries entries vaultId = [v] → jsStrOr v.Id v.id = some i →
      delete_vault_entry entries vaultId = .deleteCall i) ∧
    (matchingVaultEntries entries vaultId = [] →
      get_vault_entry entries vaultId = vaultNotFoundText vaultId) ∧
    (1 < (matchingVaultEntries entries vaultId).length →
      get_vault_entry entries vaultId =
        vaultAmbiguousText vaultId (matchingVaultEntries entries vaultId)) ∧
    (∀ v, matchingVaultEntries entries vaultId = [v] →
      get_vault_entry entries vaultId = vaultDetailText v) ∧
    (∀ v ∈ entries, v ∈ matchingVaultEntries entries vaultId ↔
      ((∃ n, v.Name = some n ∧ n ≠ "" ∧ jsToLower n = jsToLower vaultId) ∨
       (∃ n, v.name = some n ∧ n ≠ "" ∧ jsToLower n = jsToLower vaultId))) := by
  refine ⟨fun h => ?_, fun h => ⟨?_, fun v hv => ?_⟩, fun v i h hid => ?_,
    fun h => ?_, fun h => ?_, fun v i h hid => ?_,
    fun h => ?_, fun h => ?_, fun v h => ?_, fun v hv => ?_⟩
  · simp [update_vault_entry, h]
  · have h0 : (matchingVaultEntries entries inp.vaultId).length ≠ 0 := by omega
    simp [update_vault_entry, h0, h]
  · have h1 :=
      @containsStr_joinSep "\n" _ _ (List.mem_map_of_mem vaultMatchLine hv)
    exact containsStr_append_right _ (containsStr_append_left _ h1)
  · have hl : (matchingVaultEntries entries inp.vaultId).length = 1 := by rw [h]; rfl
    simp [update_vault_entry, h, hl, hid, jsDisplay]
  · simp [delete_vault_entry, h]
  · have h0 : (matchingVaultEntries entries vaultId).length ≠ 0 := by omega
    simp [delete_vault_entry, h0, h]
  · have hl : (matchingVaultEntries entries vaultId).length = 1 := by rw [h]; rfl
    simp [delete_vault_entry, h, hl, hid, jsDisplay]
  · simp [get_vault_entry, h]
  · have h0 : (matchingVaultEntries entries vaultId).length ≠ 0 := by omega
    simp [get_vault_entry, h0, h]
  · have hl : (matchingVaultEntries entries vaultId).length = 1 := by rw [h]; rfl
    simp [get_vault_entry, h, hl]
  · rw [← vaultNameMatches_iff vaultId v]
    unfold matchingVaultEntries
    simp [List.mem_filter, hv]

set_option maxRecDepth 16384 in
/-- **C1, witness.** A vault with two entries both named `Secret`
case-insensitively: `update_vault_entry` with `vaultId = "secret"` issues
no call and returns the disambiguation message carrying both IDs. -/
theorem claim_C1_witness :
    update_vault_entry
      [ArcVault.mk (some "id1") (some "Secret") none none none none none none none none
        none none,
       ArcVault.mk (some "id2") none none none none none none (some "SECRET") none none
        none none]
      (UpdateVaultEntryInput.mk "secret" (some "newval") none none none none) =
      .message (vaultAmbiguousText "secret"
        [ArcVault.mk (some "id1") (some "Secret") none none none none none none none none
          none none,
         ArcVault.mk (some "id2") none none none none none none (some "SECRET") none none
          none none]) ∧
    ContainsStr (vaultAmbiguousText "secret"
      [ArcVault.mk (some "id1") (some "Secret") none none none none none none none none
        none none,
       ArcVault.mk (some "id2") none none none none none none (some "SECRET") none none
        none none]) "• Secret (ID: id1)" ∧
    ContainsStr (vaultAmbiguousText "secret"
      [ArcVault.mk (some "id1") (some "Secret") none none none none none none none none
        none none,
       ArcVault.mk (some "id2") none none none none none none (some "SECRET") none none
        none none]) "• SECRET (ID: id2)" := by
  have hm : matchingVaultEntries
      [ArcVault.mk (some "id1") (some "Secret") none none none none none none none none
        none none,
       ArcVault.mk (some "id2") none none none none none none (some "SECRET") none none
        none none] "secret" =
      [ArcVault.mk (some "id1") (some "Secret") none none none none none none none none
        none none,
       ArcVault.mk (some "id2") none none none none none none (some "SECRET") none none
        none none] := by decide
  have h := (claim_C1_vault_name_resolution
    [ArcVault.mk (some "id1") (some "Secret") none none none none none none none none
      none none,
     ArcVault.mk (some "id2") none none none none none none (some "SECRET") none none
      none none]
    (UpdateVaultEntryInput.mk "secret" (some "newval") none none none none) "secret").2.1
    (by rw [hm]; decide)
  rw [hm] at h
  refine ⟨h.1, ?_, ?_⟩ <;> (rw [← strHasSub_iff]; decide)

/-- **C2.** `update_connector` on an existing connector sends upstream only
properties whose names occur case-insensitively among the live object's
keys (each sent pair being one of the requested pairs); every requested
property outside that intersection is reported inside a warning, not an
error; and when no requested property matches, no update call is issued and
the returned refusal message lists every live property name. -/
theorem claim_C2_update_property_filtering (connectorId : String)
    (details properties : PropBag) :
    (∀ body w, update_connector connectorId (some details) properties = .updated body w →
      ∀ kv ∈ body, kv ∈ properties ∧ jsToLower kv.1 ∈ validPropertiesOf details) ∧
    (∀ p ∈ properties.map (fun kv => kv.1), jsToLower p ∉ validPropertiesOf details →
      ∃ wtext ∈ (update_connector connectorId (some details) properties).warningsOf,
        ContainsStr wtext p) ∧
    ((∀ p ∈ properties.map (fun kv => kv.1), jsToLower p ∉ validPropertiesOf details) →
      update_connector connectorId (some details) properties =
        .refused (noValidPropsText details)
          (cronStep properties (baseWarnings details properties)).2 ∧
      ∀ kv ∈ details, ContainsStr (noValidPropsText details) kv.1) := by
  refine ⟨fun body w heq kv hkv => ?_, fun p hp hnot => ?_, fun hall => ⟨?_, fun kv hkv => ?_⟩⟩
  · rw [(update_connector_updated_inv heq).1] at hkv
    unfold validUpdatePropsOf at hkv
    have h1 := List.mem_of_mem_filter hkv
    have h2 := (List.mem_filter.mp hkv).2
    refine ⟨cronStep_fst_subset h1, ?_⟩
    simpa using h2
  · have hups : p ∈ unknownPropsOf details properties := by
      unfold unknownPropsOf
      refine List.mem_filter.mpr ⟨hp, ?_⟩
      simpa using hnot
    have hbase : unknownWarningText (unknownPropsOf details properties) ∈
        baseWarnings details properties := by
      unfold baseWarnings
      rw [if_neg (by simp [List.isEmpty_iff]; exact List.ne_nil_of_mem hups)]
      exact List.mem_singleton.mpr rfl
    refine ⟨unknownWarningText (unknownPropsOf details properties), ?_, ?_⟩
    · rw [update_connector_warningsOf]
      exact cronStep_snd_mem hbase
    · exact containsStr_append_left _ (containsStr_joinSep hups)
  · have hempty : validUpdatePropsOf details properties = [] := by
      unfold validUpdatePropsOf
      refine List.filter_eq_nil_iff.mpr fun kv hkv => ?_
      have hmem := cronStep_fst_subset hkv
      have := hall kv.1 (List.mem_map_of_mem _ hmem)
      simpa using this
    rw [update_connector_some, if_pos (by simp [hempty])]
  · have hkey : kv.1 ∈ jsSortStrings (details.map (fun kv => kv.1)) := by
      unfold jsSortStrings
      rw [(List.mergeSort_perm (details.map (fun kv => kv.1)) _).mem_iff]
      exact List.mem_map_of_mem _ hkv
    exact containsStr_append_left _ (containsStr_joinSep hkey)

set_option maxRecDepth 16384 in
/-- **C2, witness.** Live properties `host`, `port`, `automationsend`,
requested update `host = x, bogus = y`: the body sent upstream is exactly
`host = x` and `bogus` is reported inside a warning. -/
theorem claim_C2_witness :
    update_connector "c1" (some [("host", "h"), ("port", "21"), ("automationsend", "true")])
      [("host", "x"), ("bogus", "y")] =
      .updated [("host", "x")] [unknownWarningText ["bogus"]] ∧
    ∃ wtext ∈ (update_connector "c1"
      (some [("host", "h"), ("port", "21"), ("automationsend", "true")])
      [("host", "x"), ("bogus", "y")]).warningsOf, ContainsStr wtext "bogus" := by
  refine ⟨by decide, ?_⟩
  exact (claim_C2_update_property_filtering "c1"
    [("host", "h"), ("port", "21"), ("automationsend", "true")]
    [("host", "x"), ("bogus", "y")]).2.1 "bogus" (by decide) (by decide)

/-- **C6.** In `update_connector`, a truthy `receiveinterval` value is
validated only syntactically: if the trimmed value splits into exactly 5
whitespace-separated fields it is accepted verbatim (no stripping, no
warning, and it is sent whenever the connector has the property); any other
field count removes it from the update set, appends a warning, and leaves
the update proceeding for the remaining valid properties. -/
theorem claim_C6_cron_validation (connectorId : String) (details properties : PropBag)
    (v : String) (hv : lookupProp properties "receiveinterval" = some v) (htr : v ≠ "") :
    ((cronParts (jsTrim v)).length = 5 →
      cronStep properties (baseWarnings details properties) =
        (properties, baseWarnings details properties) ∧
      (jsToLower "receiveinterval" ∈ validPropertiesOf details →
        ("receiveinterval", v) ∈ validUpdatePropsOf details properties)) ∧
    ((cronParts (jsTrim v)).length ≠ 5 →
      (∀ body w, update_connector connectorId (some details) properties = .updated body w →
        ∀ u, ("receiveinterval", u) ∉ body) ∧
      cronWarningText (jsTrim v) ∈
        (update_connector connectorId (some details) properties).warningsOf ∧
      (∀ kv ∈ properties, kv.1 ≠ "receiveinterval" →
        jsToLower kv.1 ∈ validPropertiesOf details →
        ∃ body w, update_connector connectorId (some details) properties = .updated body w ∧
          kv ∈ body)) := by
  constructor
  · intro hlen
    have hstep : cronStep properties (baseWarnings details properties) =
        (properties, baseWarnings details properties) := by
      rw [cronStep_eq_of_lookup hv, if_neg (by simp [hlen])]
    refine ⟨hstep, fun hlive => ?_⟩
    unfold validUpdatePropsOf
    rw [hstep]
    exact List.mem_filter.mpr ⟨lookupProp_some hv, by simpa using hlive⟩
  · intro hlen
    have hstep : cronStep properties (baseWarnings details properties) =
        (properties.filter (fun kv => kv.1 != "receiveinterval"),
         baseWarnings details properties ++ [cronWarningText (jsTrim v)]) := by
      rw [cronStep_eq_of_lookup hv, if_pos ⟨htr, hlen⟩]
    refine ⟨fun body w heq u hu => ?_, ?_, fun kv hkv hkne hklive => ?_⟩
    · rw [(update_connector_updated_inv heq).1] at hu
      unfold validUpdatePropsOf at hu
      rw [hstep] at hu
      have h1 := List.mem_of_mem_filter hu
      have h2 := (List.mem_filter.mp h1).2
      simp at h2
    · rw [update_connector_warningsOf, hstep]
      exact List.mem_append_right _ (List.mem_singleton.mpr rfl)
    · have hmem : kv ∈ validUpdatePropsOf details properties := by
        unfold validUpdatePropsOf
        rw [hstep]
        refine List.mem_filter.mpr ⟨List.mem_filter.mpr ⟨hkv, by simpa using hkne⟩, ?_⟩
        simpa using hklive
      refine ⟨validUpdatePropsOf details properties,
        (cronStep properties (baseWarnings details properties)).2, ?_, hmem⟩
      rw [update_connector_some,
        if_neg (by simp [List.isEmpty_iff]; exact List.ne_nil_of_mem hmem)]

set_option maxRecDepth 16384 in
/-- **C6, witness.** `0 2 * * *` (5 fields) is accepted and sent when the
connector has the property; `daily` (1 field) is stripped from the update,
warned about, and the update still proceeds for `host`. -/
theorem claim_C6_witness :
    ("receiveinterval", "0 2 * * *") ∈ validUpdatePropsOf
      [("connectortype", "SFTP"), ("host", "h"), ("receiveinterval", "0 0 * * *")]
      [("receiveinterval", "0 2 * * *")] ∧
    cronWarningText "daily" ∈ (update_connector "c1"
      (some [("connectortype", "SFTP"), ("host", "h"), ("receiveinterval", "0 0 * * *")])
      [("host", "x"), ("receiveinterval", "daily")]).warningsOf ∧
    ∃ body w, update_connector "c1"
      (some [("connectortype", "SFTP"), ("host", "h"), ("receiveinterval", "0 0 * * *")])
      [("host", "x"), ("receiveinterval", "daily")] = .updated body w ∧
      ("host", "x") ∈ body := by
  refine ⟨?_, ?_, ?_⟩
  · exact ((claim_C6_cron_validation "c1"
      [("connectortype", "SFTP"), ("host", "h"), ("receiveinterval", "0 0 * * *")]
      [("receiveinterval", "0 2 * * *")] "0 2 * * *" (by decide) (by decide)).1
      (by decide)).2 (by decide)
  · have h := ((claim_C6_cron_validation "c1"
      [("connectortype", "SFTP"), ("host", "h"), ("receiveinterval", "0 0 * * *")]
      [("host", "x"), ("receiveinterval", "daily")] "daily" (by decide) (by decide)).2
      (by decide)).2.1
    simpa using h
  · exact ((claim_C6_cron_validation "c1"
      [("connectortype", "SFTP"), ("host", "h"), ("receiveinterval", "0 0 * * *")]
      [("host", "x"), ("receiveinterval", "daily")] "daily" (by decide) (by decide)).2
      (by decide)).2.2 ("host", "x") (by decide) (by decide) (by decide)

/-- **C5, counterexample.** On the array of one whitespace-only-filename
row plus one row `File = a.txt, ErrorMessage = boom`, the `send_file` tool
does *not* report the errored row separately as failed: the blank row is
filtered out, and `a.txt` is counted and listed under `Successfully Sent`
with no `Failed` section at all. -/
theorem claim_C5_counterexample :
    send_file_sentRows
      [ActionFileRow.mk (some " ") none none none none,
       ActionFileRow.mk (some "a.txt") (some "boom") none none none] =
      [ActionFileRow.mk (some "a.txt") (some "boom") none none none] ∧
    ContainsStr (send_file_text "c1" none none none
      [ActionFileRow.mk (some " ") none none none none,
       ActionFileRow.mk (some "a.txt") (some "boom") none none none])
      "**Files Sent:** 1\n\n**Successfully Sent:**\n• **a.txt**" ∧
    ¬ ContainsStr (send_file_text "c1" none none none
      [ActionFileRow.mk (some " ") none none none none,
       ActionFileRow.mk (some "a.txt") (some "boom") none none none])
      "Failed" := by
  refine ⟨by decide, ?_, ?_⟩ <;> (rw [← strHasSub_iff]; decide)

/-- **C5 (amended).** Both tools drop rows whose `File` field is absent,
empty or whitespace-only before counting processed items.  `receive_file`
then reports rows carrying an `ErrorMessage` separately (as failed) from
rows without one (as successful), the two groups partitioning the kept
rows.  `send_file`, however, reports every kept row as sent, with no
error split. -/
theorem claim_C5_action_result_filtering (rows : List ActionFileRow) :
    (∀ r ∈ actionActualFiles rows, r ∈ rows ∧ ∃ f, r.File = some f ∧ jsTrim f ≠ "") ∧
    (∀ r ∈ rows, (r.File = none ∨ ∃ f, r.File = some f ∧ jsTrim f = "") →
      r ∉ actionActualFiles rows) ∧
    (∀ r ∈ actionActualFiles rows,
      (r ∈ receive_file_successful rows ↔ optStrTruthy r.ErrorMessage = false) ∧
      (r ∈ receive_file_failed rows ↔ optStrTruthy r.ErrorMessage = true)) ∧
    (receive_file_successful rows).length + (receive_file_failed rows).length =
      (actionActualFiles rows).length ∧
    send_file_sentRows rows = actionActualFiles rows := by
  refine ⟨fun r hr => ?_, fun r hr hblank hmem => ?_, fun r hr => ⟨?_, ?_⟩, ?_, rfl⟩
  · have h1 := List.mem_of_mem_filter hr
    have h2 := (List.mem_filter.mp hr).2
    refine ⟨h1, ?_⟩
    unfold rowHasFile at h2
    cases hF : r.File with
    | none => rw [hF] at h2; cases h2
    | some f =>
      rw [hF] at h2
      simp at h2
      exact ⟨f, rfl, h2.2⟩
  · have h2 := (List.mem_filter.mp hmem).2
    unfold rowHasFile at h2
    rcases hblank with hF | ⟨f, hF, htrim⟩
    · rw [hF] at h2; cases h2
    · rw [hF] at h2
      simp [htrim] at h2
  · unfold receive_file_successful
    rw [List.mem_filter]
    simp [hr]
  · unfold receive_file_failed
    rw [List.mem_filter]
    simp [hr]
  · unfold receive_file_successful receive_file_failed
    induction actionActualFiles rows with
    | nil => rfl
    | cons x xs ih =>
      by_cases hx : optStrTruthy x.ErrorMessage <;>
        simp [List.filter_cons, hx] <;> omega

/-- **C5, witness.** The example array: the blank row is in neither group,
`receive_file` summarizes zero successful and one failed row, and
`send_file` keeps the errored row in its sent list. -/
theorem claim_C5_witness :
    receive_file_successful
      [ActionFileRow.mk (some " ") none none none none,
       ActionFileRow.mk (some "a.txt") (some "boom") none none none] = [] ∧
    receive_file_failed
      [ActionFileRow.mk (some " ") none none none none,
       ActionFileRow.mk (some "a.txt") (some "boom") none none none] =
      [ActionFileRow.mk (some "a.txt") (some "boom") none none none] ∧
    ActionFileRow.mk (some " ") none none none none ∉ actionActualFiles
      [ActionFileRow.mk (some " ") none none none none,
       ActionFileRow.mk (some "a.txt") (some "boom") none none none] := by
  refine ⟨by decide, by decide, ?_⟩
  exact (claim_C5_action_result_filtering
    [ActionFileRow.mk (some " ") none none none none,
     ActionFileRow.mk (some "a.txt") (some "boom") none none none]).2.1
    (ActionFileRow.mk (some " ") none none none none) (by decide)
    (Or.inr ⟨" ", rfl, by decide⟩)

set_option maxRecDepth 65536 in
set_option maxHeartbeats 2000000 in
/-- **C8.** Each relative-time-window tool embeds in its `ge` filter the
`toISOString` rendering of exactly `now − hours·3600000` milliseconds
(`hours` defaulting to 24 when the argument is omitted); the rendering
always carries the UTC `Z` suffix, and at the fixed simulated now
2026-01-02T12:00:00Z with `hours = 12` the cutoff is exactly
2026-01-02T00:00:00.000Z. -/
theorem claim_C8_recent_window (now : Int) (hours : Nat) (c : String) :
    recentTransactionsFilter now hours =
      "Timestamp ge '" ++ toISOString (now - hours * 3600000) ++ "'" ∧
    recentFilesFilter now hours =
      "TimeCreated ge '" ++ toISOString (now - hours * 3600000) ++ "'" ∧
    errorLogsFilter now hours none =
      "Timestamp ge '" ++ toISOString (now - hours * 3600000) ++ "' and Type eq 'Error'" ∧
    errorLogsFilter now hours (some c) =
      "Timestamp ge '" ++ toISOString (now - hours * 3600000) ++ "' and Type eq 'Error'" ++
        " and ConnectorId eq '" ++ c ++ "'" ∧
    resolveHoursArg none = 24 ∧
    (∀ t : Int, ∃ pre, toISOString t = pre ++ "Z") ∧
    recentTransactionsFilter 1767355200000 12 =
      "Timestamp ge '2026-01-02T00:00:00.000Z'" ∧
    errorLogsFilter 1767355200000 12 none =
      "Timestamp ge '2026-01-02T00:00:00.000Z' and Type eq 'Error'" ∧
    recentFilesFilter 1767355200000 12 = "TimeCreated ge '2026-01-02T00:00:00.000Z'" := by
  have harith : now - (hours : Int) * 60 * 60 * 1000 = now - (hours : Int) * 3600000 := by
    ring_nf
  refine ⟨?_, ?_, ?_, ?_, rfl, fun t => ⟨isoStringBody t, rfl⟩, by decide, by decide,
    by decide⟩ <;>
    (first
      | (unfold recentTransactionsFilter; rw [harith]; try rfl)
      | (unfold recentFilesFilter; rw [harith]; try rfl)
      | (unfold errorLogsFilter; rw [harith]; try rfl))

end ArcSpec
